import Mathlib

/-!
# Synthetic attribute generator (`generator.hpp`)

Shallow embedding of the vector generators of `namespace generate`.

* `attr_t` (a C++ `double`) is modelled by exact rationals `ℚ`: there is no
  rounding and no NaN in `random_equal`, `random_peak`, `perturb` and the
  generators.  The theorems below that rest on these definitions state
  properties that do not depend on how `+`, `-`, `*`, `/` round.  The comparison
  of `is_vector_ok` on doubles that may be NaN is modelled separately
  (`is_vector_ok_nan`).
* The C library generator (`std::srand`, `rand`, `RAND_MAX`) is not part of the
  repository and is a parameter, `RandSource`.  Its state is a natural number;
  `srand` maps the seed and the current state to the new state, `rand` returns a
  draw and the next state.
* `int count`, `int dim` are integers; a `std::vector` constructor given a
  negative `int` throws, which is the outcome `length_error`.
* The `do … while` rejection loops of `generate_corr` / `generate_anti` may run
  for ever; they carry a bound `fuel` on the number of attempts per vector and
  end in the outcome `out_of_fuel` when it is exceeded.
-/

namespace generate

/-- The C library random source: `RAND_MAX`, `std::srand` and `rand`. -/
structure RandSource where
  /-- The constant `RAND_MAX`. -/
  RAND_MAX : Nat
  /-- The call `std::srand(seed)`: the new state, from the seed and the state
  before the call. -/
  srand : Int → Nat → Nat
  /-- The call `rand()`: the draw and the state that follows. -/
  rand : Nat → Nat × Nat

/-- What the C standard promises of `rand`: `0 ≤ rand() ≤ RAND_MAX`, with
`RAND_MAX` positive. -/
def RandSource.WF (R : RandSource) : Prop :=
  0 < R.RAND_MAX ∧ ∀ s, (R.rand s).1 ≤ R.RAND_MAX

/-- State of the source after `n` calls of `rand()` from state `s`. -/
def RandSource.advance (R : RandSource) : Nat → Nat → Nat
  | 0, s => s
  | n + 1, s => (R.rand (R.advance n s)).2

/-- The `k`-th draw (counted from `0`) returned by `rand()` from state `s`. -/
def RandSource.draw (R : RandSource) (s k : Nat) : Nat :=
  (R.rand (R.advance k s)).1

/-- Two states of the source from which `rand()` returns the same sequence of
draws. -/
def RandSource.SameStream (R : RandSource) (s t : Nat) : Prop :=
  ∀ k, R.draw s k = R.draw t k

/-- What the C standard promises of `srand`: after `srand(seed)` the sequence of
values returned by `rand()` is fixed by `seed`, whatever the state before. -/
def RandSource.Reseeds (R : RandSource) : Prop :=
  ∀ seed p q, R.SameStream (R.srand seed p) (R.srand seed q)

/-- How a call ends: it returns a value, or a `std::vector` constructor throws
(`std::length_error`: a negative `int` size converts to a size beyond
`max_size()`), or a rejection loop exceeds its bound of attempts. -/
inductive Outcome (α : Type) where
  | returns (a : α)
  | length_error
  | out_of_fuel

/-- The value of an outcome under a function, the failures kept. -/
def Outcome.map {α β : Type} (f : α → β) : Outcome α → Outcome β
  | Outcome.returns a => Outcome.returns (f a)
  | Outcome.length_error => Outcome.length_error
  | Outcome.out_of_fuel => Outcome.out_of_fuel

/-- Size of `std::vector<T> v(n)` for an `int n`: `none` when the constructor
throws (`n < 0`). -/
def vector_size (n : Int) : Option Nat :=
  if n < 0 then none else some n.toNat

/-- Function `random_equal(min, max)`: `x = (T) rand() / RAND_MAX; return x * (max - min) + min`. -/
def random_equal (R : RandSource) (min max : ℚ) (s : Nat) : ℚ × Nat :=
  let r := R.rand s
  let x : ℚ := (r.1 : ℚ) / (R.RAND_MAX : ℚ)
  (x * (max - min) + min, r.2)

/-- Function `random_peak(min, max, dim)`: sums `dim` values of `random_equal(min, max)`,
divides by `dim`, and returns `sum * (max - min) + min`.  (For `dim = 0` the C++
value is NaN, `0.0 / 0`; here it is `min`.  It is used for `dim ≥ 1`, and for
`dim = 0` only where the value is never stored.) -/
def random_peak (R : RandSource) (min max : ℚ) (dim : Nat) (s : Nat) : ℚ × Nat :=
  let acc := (List.range dim).foldl
    (fun (acc : ℚ × Nat) (_ : Nat) =>
      let e := random_equal R min max acc.2
      (acc.1 + e.1, e.2))
    ((0 : ℚ), s)
  let sum : ℚ := acc.1 / (dim : ℚ)
  (sum * (max - min) + min, acc.2)

/-- Function `random_normal(med, var, dim) = random_peak(med - var, med + var, dim)`. -/
def random_normal (R : RandSource) (med var : ℚ) (dim : Nat) (s : Nat) : ℚ × Nat :=
  random_peak R (med - var) (med + var) dim s

/-- Function `is_vector_ok(min, max, x)` on values that are not NaN: `false` at the
first component with `val < min || val > max`, `true` when the loop ends. -/
def is_vector_ok (min max : ℚ) : List ℚ → Bool
  | [] => true
  | val :: x => if val < min ∨ val > max then false else is_vector_ok min max x

/-- The comparison `a < b` of two doubles, `none` standing for NaN: `false` as
soon as one side is NaN. -/
def lt_nan (a b : Option ℚ) : Bool :=
  match a, b with
  | some x, some y => decide (x < y)
  | _, _ => false

/-- Function `is_vector_ok(min, max, x)` on doubles that may be NaN (`none`): the
same loop, `val < min || val > max` read with the comparisons of doubles. -/
def is_vector_ok_nan (min max : Option ℚ) : List (Option ℚ) → Bool
  | [] => true
  | val :: x =>
    if lt_nan val min || lt_nan max val then false else is_vector_ok_nan min max x

/-- Function `std::generate_n(first, n, g)` for a generator `g` with state: calls `g`
`n` times in order and collects the values.  `none` when a call of `g` does
not return. -/
def generate_n {α σ : Type} (g : σ → Option (α × σ)) : Nat → σ → Option (List α × σ)
  | 0, st => some ([], st)
  | n + 1, st =>
    match g st with
    | none => none
    | some (a, st1) =>
      match generate_n g n st1 with
      | none => none
      | some (as, st2) => some (a :: as, st2)

/-- The outer lambda of `generate_indep`: overwrites the first `dim` entries of
`cur_attr` with `random_equal(0, 1)` and returns a copy of `cur_attr`.  The
state is the captured `cur_attr` with the state of the random source. -/
def indep_vector (R : RandSource) (dim : Nat) (st : List ℚ × Nat) :
    Option (List ℚ × (List ℚ × Nat)) :=
  match generate_n (fun s => some (random_equal R 0 1 s)) dim st.2 with
  | none => none
  | some (vals, s1) =>
    let cur_attr := vals ++ st.1.drop dim
    some (cur_attr, (cur_attr, s1))

/-- The end of a generator: `return attributes;` with the state the random
source is left in, or the bound of attempts exceeded. -/
def finish (r : Option (List (List ℚ) × (List ℚ × Nat))) :
    Outcome (List (List ℚ) × Nat) :=
  match r with
  | none => Outcome.out_of_fuel
  | some (attributes, st) => Outcome.returns (attributes, st.2)

/-- Function `generate_indep(count, dim)`, with the state of the random source before
and after: `attributes(count)`, `cur_attr(dim)`, then the outer `generate_n`. -/
def generate_indep (R : RandSource) (count dim : Int) (s : Nat) :
    Outcome (List (List ℚ) × Nat) :=
  match vector_size count with
  | none => Outcome.length_error
  | some n =>
    match vector_size dim with
    | none => Outcome.length_error
    | some d => finish (generate_n (indep_vector R d) n (List.replicate d (0 : ℚ), s))

/-- One pass of the `for` loop shared by `generate_corr` and `generate_anti`:
for `d = 0 .. dim-1` draw `h`, then `cur_attr[d] += h` and
`cur_attr[(d + 1) % dim] -= h`. -/
def perturb (draw_h : Nat → ℚ × Nat) (dim : Nat) (cur_attr : List ℚ) (s : Nat) :
    List ℚ × Nat :=
  (List.range dim).foldl
    (fun (acc : List ℚ × Nat) (d : Nat) =>
      let h := draw_h acc.2
      let c1 := acc.1.set d (acc.1.getD d 0 + h.1)
      let c2 := c1.set ((d + 1) % dim) (c1.getD ((d + 1) % dim) 0 - h.1)
      (c2, h.2))
    (cur_attr, s)

/-- Body of the `do … while` of `generate_corr`: one candidate. -/
def corr_attempt (R : RandSource) (dim : Nat) (cur_attr : List ℚ) (s : Nat) :
    List ℚ × Nat :=
  let min : ℚ := 0
  let max : ℚ := 1
  let v := random_peak R min max dim s
  let l : ℚ := if v.1 ≤ 1 / 2 then v.1 else 1 - v.1
  perturb (random_normal R min l dim) dim (cur_attr.map (fun _ => v.1)) v.2

/-- Body of the `do … while` of `generate_anti`: one candidate. -/
def anti_attempt (R : RandSource) (dim : Nat) (cur_attr : List ℚ) (s : Nat) :
    List ℚ × Nat :=
  let v := random_normal R (1 / 2) (1 / 4) dim s
  let l : ℚ := if v.1 ≤ 1 / 2 then v.1 else 1 - v.1
  perturb (random_equal R (-l) l) dim (cur_attr.map (fun _ => v.1)) v.2

/-- The loop `do { candidate } while (!is_vector_ok(min, max, cur_attr));
return cur_attr;` with at most `fuel` attempts. -/
def do_while (attempt : List ℚ → Nat → List ℚ × Nat) (min max : ℚ) :
    Nat → List ℚ × Nat → Option (List ℚ × (List ℚ × Nat))
  | 0, _ => none
  | fuel + 1, st =>
    let c := attempt st.1 st.2
    if is_vector_ok min max c.1 then some (c.1, c) else do_while attempt min max fuel c

/-- Function `generate_corr(count, dim)`, at most `fuel` attempts per vector. -/
def generate_corr (R : RandSource) (fuel : Nat) (count dim : Int) (s : Nat) :
    Outcome (List (List ℚ) × Nat) :=
  match vector_size count with
  | none => Outcome.length_error
  | some n =>
    match vector_size dim with
    | none => Outcome.length_error
    | some d =>
      finish (generate_n (do_while (corr_attempt R d) 0 1 fuel) n
        (List.replicate d (0 : ℚ), s))

/-- Function `generate_anti(count, dim)`, at most `fuel` attempts per vector. -/
def generate_anti (R : RandSource) (fuel : Nat) (count dim : Int) (s : Nat) :
    Outcome (List (List ℚ) × Nat) :=
  match vector_size count with
  | none => Outcome.length_error
  | some n =>
    match vector_size dim with
    | none => Outcome.length_error
    | some d =>
      finish (generate_n (do_while (anti_attempt R d) 0 1 fuel) n
        (List.replicate d (0 : ℚ), s))

/-- Function `generate_attr(count, dim, dist, seed)` called when the random source is in
state `prior`: `std::srand(seed)`, then the dispatch on `dist`; the last branch
builds `vector(dim, 0)` and then `count` copies of it.  Returns the Dataset and
the state the random source is left in. -/
def generate_attr (R : RandSource) (fuel : Nat) (count dim : Int) (dist : Char)
    (seed : Int) (prior : Nat) : Outcome (List (List ℚ) × Nat) :=
  let s := R.srand seed prior
  if dist = 'i' then generate_indep R count dim s
  else if dist = 'c' then generate_corr R fuel count dim s
  else if dist = 'a' then generate_anti R fuel count dim s
  else
    match vector_size dim with
    | none => Outcome.length_error
    | some d =>
      match vector_size count with
      | none => Outcome.length_error
      | some n => Outcome.returns (List.replicate n (List.replicate d (0 : ℚ)), s)

/-- Row `i` of the Dataset of `generate_indep`: the draws `i*dim .. i*dim+dim-1`
from state `s`, each divided by `RAND_MAX`. -/
def indep_row (R : RandSource) (dim s i : Nat) : List ℚ :=
  (List.range dim).map (fun j => (R.draw s (i * dim + j) : ℚ) / (R.RAND_MAX : ℚ))

/-- Two states of a generator, the captured `cur_attr` with the state of the
random source: the same `cur_attr`, and the same sequence of draws to come. -/
def RandSource.SameState (R : RandSource) (st st1 : List ℚ × Nat) : Prop :=
  st.1 = st1.1 ∧ R.SameStream st.2 st1.2

/-- Two results of a generator step that agree: both fail, or both return the
same value and leave states related by `Rel`. -/
def Agree {α σ : Type} (Rel : σ → σ → Prop) :
    Option (α × σ) → Option (α × σ) → Prop
  | none, none => True
  | some p, some q => p.1 = q.1 ∧ Rel p.2 q.2
  | _, _ => False

/-- A small random source used to run the definitions: `RAND_MAX = 4`, the draws
cycle through `0, 1, 2, 3, 4`; the state counts the calls from a start that
`srand` sets to `seed % 5` plus a multiple of `5` kept from the state before. -/
def cycle5 : RandSource where
  RAND_MAX := 4
  srand := fun seed prior => (seed.toNat % 5) + 5 * prior
  rand := fun s => (s % 5, s + 1)


/-! ## The random source -/

theorem cycle5_WF : cycle5.WF := by
  refine ⟨by decide, fun s => ?_⟩
  show s % 5 ≤ 4
  omega

theorem cycle5_advance (k s : Nat) : cycle5.advance k s = s + k := by
  induction k with
  | zero => rfl
  | succ k ih =>
    show (cycle5.rand (cycle5.advance k s)).2 = s + (k + 1)
    rw [ih]
    rfl

theorem cycle5_Reseeds : cycle5.Reseeds := by
  intro seed p q k
  show (cycle5.rand (cycle5.advance k _)).1 = (cycle5.rand (cycle5.advance k _)).1
  rw [cycle5_advance, cycle5_advance]
  show (seed.toNat % 5 + 5 * p + k) % 5 = (seed.toNat % 5 + 5 * q + k) % 5
  omega

theorem advance_succ_left (R : RandSource) (n s : Nat) :
    R.advance (n + 1) s = R.advance n (R.rand s).2 := by
  induction n with
  | zero => rfl
  | succ n ih =>
    show (R.rand (R.advance (n + 1) s)).2 = (R.rand (R.advance n (R.rand s).2)).2
    rw [ih]

theorem advance_add (R : RandSource) (a b s : Nat) :
    R.advance (a + b) s = R.advance b (R.advance a s) := by
  induction b with
  | zero => rfl
  | succ b ih =>
    show (R.rand (R.advance (a + b) s)).2 = (R.rand (R.advance b (R.advance a s))).2
    rw [ih]

theorem draw_advance (R : RandSource) (a k s : Nat) :
    R.draw (R.advance a s) k = R.draw s (a + k) := by
  unfold RandSource.draw
  rw [advance_add]

theorem draw_succ_left (R : RandSource) (s k : Nat) :
    R.draw (R.rand s).2 k = R.draw s (k + 1) := by
  unfold RandSource.draw
  rw [advance_succ_left]

/-! ## The size of a `std::vector` built from an `int` -/

theorem vector_size_natCast (n : Nat) : vector_size (n : Int) = some n := by
  simp [vector_size]

theorem vector_size_neg (n : Int) (h : n < 0) : vector_size n = none := by
  simp [vector_size, h]

theorem generate_indep_natCast (R : RandSource) (count dim s : Nat) :
    generate_indep R (count : Int) (dim : Int) s =
      finish (generate_n (indep_vector R dim) count (List.replicate dim (0 : ℚ), s)) := by
  simp only [generate_indep, vector_size_natCast]

theorem generate_corr_natCast (R : RandSource) (fuel count dim s : Nat) :
    generate_corr R fuel (count : Int) (dim : Int) s =
      finish (generate_n (do_while (corr_attempt R dim) 0 1 fuel) count
        (List.replicate dim (0 : ℚ), s)) := by
  simp only [generate_corr, vector_size_natCast]

theorem generate_anti_natCast (R : RandSource) (fuel count dim s : Nat) :
    generate_anti R fuel (count : Int) (dim : Int) s =
      finish (generate_n (do_while (anti_attempt R dim) 0 1 fuel) count
        (List.replicate dim (0 : ℚ), s)) := by
  simp only [generate_anti, vector_size_natCast]

theorem finish_returns (r : Option (List (List ℚ) × (List ℚ × Nat))) (ds : List (List ℚ))
    (s1 : Nat) (h : finish r = Outcome.returns (ds, s1)) :
    ∃ st, r = some (ds, st) ∧ st.2 = s1 := by
  match r, h with
  | some (a, st), h =>
    simp only [finish, Outcome.returns.injEq, Prod.mk.injEq] at h
    exact ⟨st, by rw [h.1], h.2⟩

/-! ## `is_vector_ok` -/

theorem unit_draw_bounds (R : RandSource) (hR : R.WF) (s : Nat) :
    0 ≤ ((R.rand s).1 : ℚ) / (R.RAND_MAX : ℚ) ∧
      ((R.rand s).1 : ℚ) / (R.RAND_MAX : ℚ) ≤ 1 := by
  have hpos : (0 : ℚ) < (R.RAND_MAX : ℚ) := by exact_mod_cast hR.1
  have hle : ((R.rand s).1 : ℚ) ≤ (R.RAND_MAX : ℚ) := by exact_mod_cast hR.2 s
  constructor
  · positivity
  · rw [div_le_one hpos]
    exact hle

theorem is_vector_ok_iff (min max : ℚ) (x : List ℚ) :
    is_vector_ok min max x = true ↔ ∀ c ∈ x, min ≤ c ∧ c ≤ max := by
  induction x with
  | nil => simp [is_vector_ok]
  | cons val x ih =>
    by_cases hv : val < min ∨ val > max
    · simp only [is_vector_ok, hv, if_true, List.mem_cons, forall_eq_or_imp]
      constructor
      · intro h
        cases h
      · rintro ⟨⟨h1, h2⟩, -⟩
        rcases hv with hv | hv
        · exact absurd h1 (not_le.mpr hv)
        · exact absurd h2 (not_le.mpr hv)
    · simp only [is_vector_ok, hv, if_false, List.mem_cons, forall_eq_or_imp, ih]
      push_neg at hv
      constructor
      · intro h
        exact ⟨hv, h⟩
      · intro h
        exact h.2

/-! ## `generate_n` and the rejection loop -/

theorem generate_n_invariant {α σ : Type} (g : σ → Option (α × σ)) (Inv : σ → Prop)
    (P : α → Prop)
    (hg : ∀ st a st1, Inv st → g st = some (a, st1) → P a ∧ Inv st1) :
    ∀ (n : Nat) (st : σ) (as : List α) (st2 : σ), Inv st →
      generate_n g n st = some (as, st2) →
      as.length = n ∧ (∀ a ∈ as, P a) ∧ Inv st2 := by
  intro n
  induction n with
  | zero =>
    intro st as st2 hst h
    simp only [generate_n, Option.some.injEq, Prod.mk.injEq] at h
    obtain ⟨rfl, rfl⟩ := h
    simp [hst]
  | succ n ih =>
    intro st as st2 hst h
    simp only [generate_n] at h
    cases hgst : g st with
    | none => simp [hgst] at h
    | some p =>
      obtain ⟨a, st1⟩ := p
      obtain ⟨hPa, hst1⟩ := hg st a st1 hst hgst
      simp only [hgst] at h
      cases hrec : generate_n g n st1 with
      | none => simp [hrec] at h
      | some q =>
        obtain ⟨as1, st3⟩ := q
        simp only [hrec, Option.some.injEq, Prod.mk.injEq] at h
        obtain ⟨rfl, rfl⟩ := h
        obtain ⟨hlen, hall, hinv⟩ := ih st1 as1 st3 hst1 hrec
        refine ⟨by simp [hlen], ?_, hinv⟩
        intro b hb
        rcases List.mem_cons.mp hb with rfl | hb
        · exact hPa
        · exact hall b hb

theorem do_while_result (attempt : List ℚ → Nat → List ℚ × Nat) (min max : ℚ)
    (Inv : List ℚ × Nat → Prop)
    (hstep : ∀ st, Inv st → Inv (attempt st.1 st.2)) :
    ∀ (fuel : Nat) (st : List ℚ × Nat) (x : List ℚ) (st1 : List ℚ × Nat), Inv st →
      do_while attempt min max fuel st = some (x, st1) →
      is_vector_ok min max x = true ∧ st1.1 = x ∧ Inv st1 := by
  intro fuel
  induction fuel with
  | zero =>
    intro st x st1 _ h
    simp [do_while] at h
  | succ fuel ih =>
    intro st x st1 hst h
    simp only [do_while] at h
    by_cases hok : is_vector_ok min max (attempt st.1 st.2).1 = true
    · simp only [hok, if_true, Option.some.injEq, Prod.mk.injEq] at h
      obtain ⟨rfl, rfl⟩ := h
      exact ⟨hok, rfl, hstep st hst⟩
    · simp only [hok] at h
      exact ih _ x st1 (hstep st hst) h

/-! ## `generate_indep` in closed form -/

theorem generate_n_random_equal (R : RandSource) (n s : Nat) :
    generate_n (fun s => some (random_equal R 0 1 s)) n s =
      some ((List.range n).map (fun j => (R.draw s j : ℚ) / (R.RAND_MAX : ℚ)),
        R.advance n s) := by
  induction n generalizing s with
  | zero => rfl
  | succ n ih =>
    simp only [generate_n, ih, List.range_succ_eq_map, List.map_cons, List.map_map,
      advance_succ_left]
    have hhead : (random_equal R 0 1 s).1 = (R.draw s 0 : ℚ) / (R.RAND_MAX : ℚ) := by
      simp [random_equal, RandSource.draw, RandSource.advance]
    have htail : List.map (fun j => (R.draw (random_equal R 0 1 s).2 j : ℚ) / (R.RAND_MAX : ℚ))
        (List.range n) =
        List.map ((fun j => (R.draw s j : ℚ) / (R.RAND_MAX : ℚ)) ∘ Nat.succ) (List.range n) := by
      apply List.map_congr_left
      intro j _
      simp only [Function.comp, random_equal]
      rw [draw_succ_left]
    rw [hhead, htail]
    rfl

theorem indep_vector_eq (R : RandSource) (dim : Nat) (cur : List ℚ) (s : Nat)
    (hcur : cur.length = dim) :
    indep_vector R dim (cur, s) =
      some (indep_row R dim s 0, (indep_row R dim s 0, R.advance dim s)) := by
  simp only [indep_vector, generate_n_random_equal]
  have hdrop : cur.drop dim = [] := by
    rw [List.drop_eq_nil_iff]
    omega
  simp [hdrop, indep_row]

theorem indep_row_advance (R : RandSource) (dim s i : Nat) :
    indep_row R dim (R.advance dim s) i = indep_row R dim s (i + 1) := by
  unfold indep_row
  apply List.map_congr_left
  intro j _
  rw [draw_advance]
  congr 3
  ring

theorem generate_n_indep_vector (R : RandSource) (dim : Nat) :
    ∀ (count : Nat) (cur : List ℚ) (s : Nat), cur.length = dim →
      ∃ cur1 : List ℚ, cur1.length = dim ∧
        generate_n (indep_vector R dim) count (cur, s) =
          some ((List.range count).map (indep_row R dim s),
            (cur1, R.advance (count * dim) s)) := by
  intro count
  induction count with
  | zero =>
    intro cur s hcur
    exact ⟨cur, hcur, by simp [generate_n, RandSource.advance]⟩
  | succ n ih =>
    intro cur s hcur
    have hrow : (indep_row R dim s 0).length = dim := by simp [indep_row]
    obtain ⟨cur1, hcur1, hrec⟩ := ih (indep_row R dim s 0) (R.advance dim s) hrow
    refine ⟨cur1, hcur1, ?_⟩
    simp only [generate_n, indep_vector_eq R dim cur s hcur, hrec,
      List.range_succ_eq_map, List.map_cons, List.map_map]
    congr 3
    · apply List.map_congr_left
      intro i _
      simp only [Function.comp]
      rw [indep_row_advance]
    · rw [← advance_add]
      congr 1
      ring

theorem generate_indep_eq (R : RandSource) (count dim s : Nat) :
    generate_indep R (count : Int) (dim : Int) s =
      Outcome.returns ((List.range count).map (indep_row R dim s),
        R.advance (count * dim) s) := by
  obtain ⟨cur1, -, h⟩ :=
    generate_n_indep_vector R dim count (List.replicate dim (0 : ℚ)) s (by simp)
  rw [generate_indep_natCast, h]
  rfl

/-! ## Shape and range of the generated vectors -/

theorem perturb_length (draw_h : Nat → ℚ × Nat) (dim : Nat) (cur : List ℚ) (s : Nat) :
    (perturb draw_h dim cur s).1.length = cur.length := by
  unfold perturb
  generalize List.range dim = ds
  generalize hacc : (cur, s) = acc
  have hlen : cur.length = acc.1.length := by rw [← hacc]
  rw [hlen]
  clear hlen hacc
  induction ds generalizing acc with
  | nil => rfl
  | cons d ds ih =>
    rw [List.foldl_cons, ih]
    simp

theorem corr_attempt_length (R : RandSource) (dim : Nat) (cur : List ℚ) (s : Nat) :
    (corr_attempt R dim cur s).1.length = cur.length := by
  simp [corr_attempt, perturb_length]

theorem anti_attempt_length (R : RandSource) (dim : Nat) (cur : List ℚ) (s : Nat) :
    (anti_attempt R dim cur s).1.length = cur.length := by
  simp [anti_attempt, perturb_length]

/-- Vectors produced by a rejection loop over an attempt that keeps the length
of `cur_attr`: as many as asked for, each of the length of the initial
`cur_attr`, each passing `is_vector_ok`. -/
theorem generate_n_do_while (attempt : List ℚ → Nat → List ℚ × Nat)
    (hlen : ∀ cur s, (attempt cur s).1.length = cur.length)
    (min max : ℚ) (fuel count dim : Nat) (s : Nat) (ds : List (List ℚ))
    (st : List ℚ × Nat)
    (h : generate_n (do_while attempt min max fuel) count (List.replicate dim (0 : ℚ), s)
      = some (ds, st)) :
    ds.length = count ∧ ∀ x ∈ ds, x.length = dim ∧ is_vector_ok min max x = true := by
  have key := generate_n_invariant (do_while attempt min max fuel)
    (fun st => st.1.length = dim)
    (fun x => x.length = dim ∧ is_vector_ok min max x = true)
    (by
      intro st0 x st1 hst0 hx
      obtain ⟨hok, hx1, hst1⟩ := do_while_result attempt min max
        (fun st => st.1.length = dim)
        (fun st hst => by
          show (attempt st.1 st.2).1.length = dim
          rw [hlen]
          exact hst)
        fuel st0 x st1 hst0 hx
      exact ⟨⟨by rw [← hx1]; exact hst1, hok⟩, hst1⟩)
    count (List.replicate dim (0 : ℚ), s) ds st (by simp) h
  exact ⟨key.1, key.2.1⟩

theorem generate_corr_shape (R : RandSource) (fuel count dim s : Nat)
    (ds : List (List ℚ)) (s1 : Nat)
    (h : generate_corr R fuel (count : Int) (dim : Int) s = Outcome.returns (ds, s1)) :
    ds.length = count ∧ ∀ x ∈ ds, x.length = dim ∧ is_vector_ok 0 1 x = true := by
  rw [generate_corr_natCast] at h
  obtain ⟨st, hg, -⟩ := finish_returns _ ds s1 h
  exact generate_n_do_while _ (corr_attempt_length R dim) 0 1 fuel count dim s ds st hg

theorem generate_anti_shape (R : RandSource) (fuel count dim s : Nat)
    (ds : List (List ℚ)) (s1 : Nat)
    (h : generate_anti R fuel (count : Int) (dim : Int) s = Outcome.returns (ds, s1)) :
    ds.length = count ∧ ∀ x ∈ ds, x.length = dim ∧ is_vector_ok 0 1 x = true := by
  rw [generate_anti_natCast] at h
  obtain ⟨st, hg, -⟩ := finish_returns _ ds s1 h
  exact generate_n_do_while _ (anti_attempt_length R dim) 0 1 fuel count dim s ds st hg

theorem indep_row_length (R : RandSource) (dim s i : Nat) :
    (indep_row R dim s i).length = dim := by
  simp [indep_row]

theorem indep_row_bounds (R : RandSource) (hR : R.WF) (dim s i : Nat) :
    ∀ c ∈ indep_row R dim s i, 0 ≤ c ∧ c ≤ 1 := by
  intro c hc
  simp only [indep_row, List.mem_map] at hc
  obtain ⟨j, -, rfl⟩ := hc
  exact unit_draw_bounds R hR _

/-! ## Running the definitions on `cycle5` -/

theorem random_equal_cycle5 (a b : ℚ) (s : Nat) :
    random_equal cycle5 a b s = (((s % 5 : Nat) : ℚ) / 4 * (b - a) + a, s + 1) := by
  simp [random_equal, cycle5]

theorem range_one : List.range 1 = [0] := by decide

theorem range_two : List.range 2 = [0, 1] := by decide

theorem random_peak_two_cycle5 (a b : ℚ) (s : Nat) :
    random_peak cycle5 a b 2 s =
      ((((s % 5 : Nat) : ℚ) / 4 * (b - a) + a
          + ((((s + 1) % 5 : Nat) : ℚ) / 4 * (b - a) + a)) / 2 * (b - a) + a, s + 2) := by
  simp [random_peak, random_equal_cycle5, range_two]

theorem perturb_two (draw_h : Nat → ℚ × Nat) (a b : ℚ) (s : Nat) :
    perturb draw_h 2 [a, b] s =
      ([a + (draw_h s).1 - (draw_h (draw_h s).2).1,
        b - (draw_h s).1 + (draw_h (draw_h s).2).1], (draw_h (draw_h s).2).2) := by
  simp [perturb, range_two]

/-- First candidate of `generate_corr` for `dim = 2` from state `1`: rejected,
its second component is negative. -/
theorem corr_attempt_cycle5_first :
    corr_attempt cycle5 2 [0, 0] 1 = ([51 / 64, -3 / 64], 7) := by
  have hv : random_peak cycle5 0 1 2 1 = (3 / 8, 3) := by
    rw [random_peak_two_cycle5]; norm_num
  have h0 : random_normal cycle5 0 (3 / 8) 2 3 = (-21 / 128, 5) := by
    rw [random_normal, random_peak_two_cycle5]; norm_num
  have h1 : random_normal cycle5 0 (3 / 8) 2 5 = (-75 / 128, 7) := by
    rw [random_normal, random_peak_two_cycle5]; norm_num
  simp only [corr_attempt, hv, List.map]
  norm_num [perturb_two, h0, h1]

/-- Second candidate, from state `7`: accepted. -/
theorem corr_attempt_cycle5_second :
    corr_attempt cycle5 2 [51 / 64, -3 / 64] 7 = ([89 / 128, 71 / 128], 13) := by
  have hv : random_peak cycle5 0 1 2 7 = (5 / 8, 9) := by
    rw [random_peak_two_cycle5]; norm_num
  have h0 : random_normal cycle5 0 (3 / 8) 2 9 = (-3 / 8, 11) := by
    rw [random_normal, random_peak_two_cycle5]; norm_num
  have h1 : random_normal cycle5 0 (3 / 8) 2 11 = (-57 / 128, 13) := by
    rw [random_normal, random_peak_two_cycle5]; norm_num
  simp only [corr_attempt, hv, List.map]
  norm_num [perturb_two, h0, h1]

theorem generate_attr_cycle5_corr :
    generate_attr cycle5 10 ((1 : Nat) : Int) ((2 : Nat) : Int) 'c' 1 0
      = Outcome.returns ([[89 / 128, 71 / 128]], 13) := by
  have hs : cycle5.srand 1 0 = 1 := by decide
  have hrep : List.replicate 2 (0 : ℚ) = [0, 0] := by decide
  have hloop : do_while (corr_attempt cycle5 2) 0 1 10 ([0, 0], 1)
      = some ([89 / 128, 71 / 128], ([89 / 128, 71 / 128], 13)) := by
    have hbad : is_vector_ok 0 1 [51 / 64, -3 / 64] = false := by
      norm_num [is_vector_ok]
    have hgood : is_vector_ok 0 1 [89 / 128, 71 / 128] = true := by
      norm_num [is_vector_ok]
    simp only [do_while, corr_attempt_cycle5_first, hbad, corr_attempt_cycle5_second, hgood]
    simp
  have hc : ('c' : Char) ≠ 'i' := by decide
  simp only [generate_attr, hc, if_false, if_true, generate_corr_natCast, generate_n, hs, hrep,
    hloop, finish]

theorem anti_attempt_cycle5 :
    anti_attempt cycle5 2 [0, 0] 1 = ([15 / 64, 45 / 64], 5) := by
  have hv : random_normal cycle5 (1 / 2) (1 / 4) 2 1 = (15 / 32, 3) := by
    rw [random_normal, random_peak_two_cycle5]; norm_num
  simp only [anti_attempt, hv, List.map]
  norm_num [perturb_two, random_equal_cycle5]

theorem generate_attr_cycle5_anti :
    generate_attr cycle5 10 ((1 : Nat) : Int) ((2 : Nat) : Int) 'a' 1 0
      = Outcome.returns ([[15 / 64, 45 / 64]], 5) := by
  have hs : cycle5.srand 1 0 = 1 := by decide
  have hrep : List.replicate 2 (0 : ℚ) = [0, 0] := by decide
  have hloop : do_while (anti_attempt cycle5 2) 0 1 10 ([0, 0], 1)
      = some ([15 / 64, 45 / 64], ([15 / 64, 45 / 64], 5)) := by
    have hgood : is_vector_ok 0 1 [15 / 64, 45 / 64] = true := by
      norm_num [is_vector_ok]
    simp only [do_while, anti_attempt_cycle5, hgood]
    simp
  have hi : ('a' : Char) ≠ 'i' := by decide
  have hc : ('a' : Char) ≠ 'c' := by decide
  simp only [generate_attr, hi, hc, if_false, if_true, generate_anti_natCast, generate_n, hs,
    hrep, hloop, finish]

/-! ## The Dataset of `generate_attr` -/

/-- Claim C1. Whenever `generate_attr` returns for one of the tags `'i'`, `'c'`,
`'a'` with `count ≥ 0` and `dim ≥ 1` (any seed, any random source whose draws lie
in `0 .. RAND_MAX`), every component of every vector of the returned Dataset lies
in the closed interval `[0, 1]`. -/
theorem generate_attr_unit_interval (R : RandSource) (hR : R.WF)
    (fuel count dim : Nat) (dist : Char) (seed : Int) (prior : Nat)
    (hdim : 1 ≤ dim) (hdist : dist = 'i' ∨ dist = 'c' ∨ dist = 'a')
    (ds : List (List ℚ)) (s1 : Nat)
    (h : generate_attr R fuel (count : Int) (dim : Int) dist seed prior
      = Outcome.returns (ds, s1)) :
    ∀ x ∈ ds, ∀ c ∈ x, 0 ≤ c ∧ c ≤ 1 := by
  have _ := hdim
  rcases hdist with rfl | rfl | rfl
  · simp only [generate_attr, if_true, generate_indep_eq, Outcome.returns.injEq,
      Prod.mk.injEq] at h
    obtain ⟨rfl, -⟩ := h
    intro x hx
    simp only [List.mem_map] at hx
    obtain ⟨i, -, rfl⟩ := hx
    exact indep_row_bounds R hR dim _ i
  · have hc : ('c' : Char) ≠ 'i' := by decide
    have h1 : generate_corr R fuel (count : Int) (dim : Int) (R.srand seed prior)
        = Outcome.returns (ds, s1) := by
      simpa only [generate_attr, hc, if_false, if_true] using h
    intro x hx
    exact (is_vector_ok_iff 0 1 x).mp ((generate_corr_shape R fuel count dim _ ds s1 h1).2 x hx).2
  · have hi : ('a' : Char) ≠ 'i' := by decide
    have hc : ('a' : Char) ≠ 'c' := by decide
    have h1 : generate_anti R fuel (count : Int) (dim : Int) (R.srand seed prior)
        = Outcome.returns (ds, s1) := by
      simpa only [generate_attr, hi, hc, if_false, if_true] using h
    intro x hx
    exact (is_vector_ok_iff 0 1 x).mp ((generate_anti_shape R fuel count dim _ ds s1 h1).2 x hx).2

/-- Claim C2. Whenever `generate_attr(count, dim, tag, seed)` returns, with
`count ≥ 0`, `dim ≥ 1` and any tag (recognized or not), the Dataset has exactly
`count` vectors and each vector has exactly `dim` components. -/
theorem generate_attr_shape (R : RandSource) (fuel count dim : Nat) (dist : Char)
    (seed : Int) (prior : Nat) (hdim : 1 ≤ dim) (ds : List (List ℚ)) (s1 : Nat)
    (h : generate_attr R fuel (count : Int) (dim : Int) dist seed prior
      = Outcome.returns (ds, s1)) :
    ds.length = count ∧ ∀ x ∈ ds, x.length = dim := by
  have _ := hdim
  unfold generate_attr at h
  by_cases hi : dist = 'i'
  · simp only [hi, if_true, generate_indep_eq, Outcome.returns.injEq, Prod.mk.injEq] at h
    obtain ⟨rfl, -⟩ := h
    refine ⟨by simp, ?_⟩
    intro x hx
    simp only [List.mem_map] at hx
    obtain ⟨i, -, rfl⟩ := hx
    exact indep_row_length R dim _ i
  · by_cases hc : dist = 'c'
    · simp only [hi, hc, if_true, if_false] at h
      have := generate_corr_shape R fuel count dim _ ds s1 h
      exact ⟨this.1, fun x hx => (this.2 x hx).1⟩
    · by_cases ha : dist = 'a'
      · simp only [hi, hc, ha, if_true, if_false] at h
        have := generate_anti_shape R fuel count dim _ ds s1 h
        exact ⟨this.1, fun x hx => (this.2 x hx).1⟩
      · simp only [hi, hc, ha, if_false, vector_size_natCast, Outcome.returns.injEq,
          Prod.mk.injEq] at h
        obtain ⟨rfl, -⟩ := h
        refine ⟨by simp, ?_⟩
        intro x hx
        rw [List.mem_replicate] at hx
        rw [hx.2]
        simp

/-- Witness of C1: with the source `cycle5`, seed `1`, tag `'c'`, one vector of
dimension `2` (first candidate rejected, second accepted). -/
theorem generate_attr_unit_interval_witness :
    generate_attr cycle5 10 ((1 : Nat) : Int) ((2 : Nat) : Int) 'c' 1 0
        = Outcome.returns ([[89 / 128, 71 / 128]], 13) ∧
      ∀ x ∈ [[(89 / 128 : ℚ), 71 / 128]], ∀ c ∈ x, 0 ≤ c ∧ c ≤ 1 :=
  ⟨generate_attr_cycle5_corr,
    generate_attr_unit_interval cycle5 cycle5_WF 10 1 2 'c' 1 0 (by decide)
      (Or.inr (Or.inl rfl)) _ _ generate_attr_cycle5_corr⟩

/-- Witness of C2: with the source `cycle5`, seed `1`, tag `'a'`, one vector of
dimension `2`. -/
theorem generate_attr_shape_witness :
    generate_attr cycle5 10 ((1 : Nat) : Int) ((2 : Nat) : Int) 'a' 1 0
        = Outcome.returns ([[15 / 64, 45 / 64]], 5) ∧
      ([[(15 / 64 : ℚ), 45 / 64]].length = 1 ∧
        ∀ x ∈ [[(15 / 64 : ℚ), 45 / 64]], x.length = 2) :=
  ⟨generate_attr_cycle5_anti,
    generate_attr_shape cycle5 10 1 2 'a' 1 0 (by decide) _ _ generate_attr_cycle5_anti⟩

/-- Claim C4. For a tag other than `'i'`, `'c'`, `'a'`, and `count ≥ 0`, `dim ≥ 0`,
`generate_attr` returns exactly `count` vectors, each of `dim` components all
equal to `0`. -/
theorem generate_attr_fallback (R : RandSource) (fuel count dim : Nat) (dist : Char)
    (seed : Int) (prior : Nat) (hi : dist ≠ 'i') (hc : dist ≠ 'c') (ha : dist ≠ 'a') :
    generate_attr R fuel (count : Int) (dim : Int) dist seed prior =
      Outcome.returns (List.replicate count (List.replicate dim (0 : ℚ)),
        R.srand seed prior) := by
  simp only [generate_attr, hi, hc, ha, if_false, vector_size_natCast]

/-- Witness of C4: scenario D, ten copies of `[0, 0]` for an unrecognized tag. -/
theorem generate_attr_fallback_witness :
    generate_attr cycle5 0 ((10 : Nat) : Int) ((2 : Nat) : Int) 'b' 1 0 =
      Outcome.returns (List.replicate 10 (List.replicate 2 (0 : ℚ)), cycle5.srand 1 0) :=
  generate_attr_fallback cycle5 0 10 2 'b' 1 0 (by decide) (by decide) (by decide)

/-- Claim C6. For `count = 0`, every tag, every `dim ≥ 0` and every seed,
`generate_attr` returns the empty Dataset and consumes no draw: the random
source is left in the state produced by `std::srand(seed)`. -/
theorem generate_attr_count_zero (R : RandSource) (fuel dim : Nat) (dist : Char)
    (seed : Int) (prior : Nat) :
    generate_attr R fuel 0 (dim : Int) dist seed prior
      = Outcome.returns ([], R.srand seed prior) := by
  have h0 : vector_size 0 = some 0 := rfl
  unfold generate_attr
  split_ifs <;>
    simp [generate_indep, generate_corr, generate_anti, generate_n, finish, h0,
      vector_size_natCast]

/-- Claim C7. `generate_attr` re-seeds the random source on every call, whatever
the tag: each generator is run from the state left by `srand(seed)`, not from
the state before the call; for an unrecognized tag the state after the call is
exactly the state left by `srand(seed)`, and when `srand` fixes the sequence of
draws by the seed, that sequence is the same whatever the state before the
call. -/
theorem generate_attr_reseeds (R : RandSource) (fuel count dim : Nat) (dist : Char)
    (seed : Int) (prior : Nat) :
    (dist = 'i' →
        generate_attr R fuel (count : Int) (dim : Int) dist seed prior
          = generate_indep R (count : Int) (dim : Int) (R.srand seed prior)) ∧
      (dist = 'c' →
        generate_attr R fuel (count : Int) (dim : Int) dist seed prior
          = generate_corr R fuel (count : Int) (dim : Int) (R.srand seed prior)) ∧
      (dist = 'a' →
        generate_attr R fuel (count : Int) (dim : Int) dist seed prior
          = generate_anti R fuel (count : Int) (dim : Int) (R.srand seed prior)) ∧
      (dist ≠ 'i' → dist ≠ 'c' → dist ≠ 'a' →
        (generate_attr R fuel (count : Int) (dim : Int) dist seed prior).map Prod.snd
            = Outcome.returns (R.srand seed prior) ∧
          (R.Reseeds → ∀ prior2,
            R.SameStream (R.srand seed prior) (R.srand seed prior2))) := by
  refine ⟨?_, ?_, ?_, ?_⟩
  · rintro rfl
    simp only [generate_attr, if_true]
  · rintro rfl
    have hc : ('c' : Char) ≠ 'i' := by decide
    simp only [generate_attr, hc, if_false, if_true]
  · rintro rfl
    have hi : ('a' : Char) ≠ 'i' := by decide
    have hc : ('a' : Char) ≠ 'c' := by decide
    simp only [generate_attr, hi, hc, if_false, if_true]
  · intro hi hc ha
    refine ⟨?_, fun hR prior2 => hR seed prior prior2⟩
    simp only [generate_attr, hi, hc, ha, if_false, vector_size_natCast, Outcome.map]

/-- Witness of C7: an unrecognized tag, called with the source in state `42`. -/
theorem generate_attr_reseeds_witness :
    (generate_attr cycle5 0 ((3 : Nat) : Int) ((2 : Nat) : Int) 'x' 7 42).map Prod.snd
        = Outcome.returns (cycle5.srand 7 42) ∧
      (cycle5.Reseeds → ∀ prior2,
        cycle5.SameStream (cycle5.srand 7 42) (cycle5.srand 7 prior2)) :=
  (generate_attr_reseeds cycle5 0 3 2 'x' 7 42).2.2.2 (by decide) (by decide) (by decide)

/-- Claim C8. For `count ≥ 0` and `dim ≥ 0`, `generate_indep(count, dim)` always
returns (no rejection), consumes exactly `count * dim` draws, and component `j`
of vector `i` is draw number `i * dim + j` divided by `RAND_MAX`, which is
`random_equal(0, 1)` on that draw. -/
theorem generate_indep_row_major (R : RandSource) (count dim s : Nat) :
    generate_indep R (count : Int) (dim : Int) s =
        Outcome.returns ((List.range count).map (fun i =>
            (List.range dim).map (fun j =>
              (R.draw s (i * dim + j) : ℚ) / (R.RAND_MAX : ℚ))),
          R.advance (count * dim) s) ∧
      ∀ k, (random_equal R 0 1 (R.advance k s)).1
        = (R.draw s k : ℚ) / (R.RAND_MAX : ℚ) := by
  refine ⟨generate_indep_eq R count dim s, ?_⟩
  intro k
  simp [random_equal, RandSource.draw]

/-! ## `random_peak` -/

theorem random_peak_foldl (R : RandSource) (min max : ℚ) (n s : Nat) :
    (List.range n).foldl
        (fun (acc : ℚ × Nat) (_ : Nat) =>
          let e := random_equal R min max acc.2
          (acc.1 + e.1, e.2))
        ((0 : ℚ), s)
      = (∑ k ∈ Finset.range n,
          (min + (R.draw s k : ℚ) / (R.RAND_MAX : ℚ) * (max - min)), R.advance n s) := by
  induction n with
  | zero => rfl
  | succ n ih =>
    rw [List.range_succ, List.foldl_append, ih, Finset.sum_range_succ]
    simp only [List.foldl_cons, List.foldl_nil, random_equal, RandSource.draw,
      RandSource.advance]
    congr 1
    ring

theorem random_peak_eq (R : RandSource) (min max : ℚ) (dim s : Nat) :
    random_peak R min max dim s =
      ((∑ k ∈ Finset.range dim,
            (min + (R.draw s k : ℚ) / (R.RAND_MAX : ℚ) * (max - min))) / (dim : ℚ)
          * (max - min) + min,
        R.advance dim s) := by
  unfold random_peak
  simp only [random_peak_foldl]

/-- Claim C9. For `dim ≥ 1`, `random_peak(min, max, dim)` consumes exactly `dim`
draws `r_0 .. r_{dim-1}` and returns `avg * (max - min) + min`, where `avg` is the
mean of the `dim` values `min + (r_k / RAND_MAX) * (max - min)` of
`random_equal(min, max)`: the rescaling is applied to the average that is
already in range. -/
theorem random_peak_rescaled_mean (R : RandSource) (min max : ℚ) (dim s : Nat)
    (hdim : 1 ≤ dim) :
    (random_peak R min max dim s).2 = R.advance dim s ∧
      (random_peak R min max dim s).1 =
        (1 / (dim : ℚ) * ∑ k ∈ Finset.range dim,
            (min + (R.draw s k : ℚ) / (R.RAND_MAX : ℚ) * (max - min)))
          * (max - min) + min ∧
      ∀ k, (random_equal R min max (R.advance k s)).1
        = min + (R.draw s k : ℚ) / (R.RAND_MAX : ℚ) * (max - min) := by
  have _ := hdim
  rw [random_peak_eq]
  refine ⟨rfl, ?_, ?_⟩
  · show _ / (dim : ℚ) * (max - min) + min = _
    rw [div_eq_inv_mul, one_div]
  · intro k
    simp only [random_equal, RandSource.draw]
    ring

/-- Witness of C9: `random_peak(0, 1, 2)` on the source `cycle5` from state `1`. -/
theorem random_peak_rescaled_mean_witness :
    1 ≤ 2 ∧
      ((random_peak cycle5 0 1 2 1).2 = cycle5.advance 2 1 ∧
        (random_peak cycle5 0 1 2 1).1 =
          (1 / ((2 : Nat) : ℚ) * ∑ k ∈ Finset.range 2,
              (0 + (cycle5.draw 1 k : ℚ) / (cycle5.RAND_MAX : ℚ) * (1 - 0)))
            * (1 - 0) + 0 ∧
        ∀ k, (random_equal cycle5 0 1 (cycle5.advance k 1)).1
          = 0 + (cycle5.draw 1 k : ℚ) / (cycle5.RAND_MAX : ℚ) * (1 - 0)) :=
  ⟨by decide, random_peak_rescaled_mean cycle5 0 1 2 1 (by decide)⟩

theorem random_peak_one (R : RandSource) (min max : ℚ) (s : Nat) :
    random_peak R min max 1 s =
      ((random_equal R min max s).1 * (max - min) + min, (R.rand s).2) := by
  simp [random_peak, random_equal, range_one]

/-- Claim C10 fails on the code. With `min = -1/4`, `max = 1/4`, `dim = 1` and a
draw `rand() = 0` (source `cycle5` in state `0`), `random_peak` returns `-3/8`,
below `min`; this is also `random_normal(0, 1/4, 1)`, below `med - var`. -/
theorem random_peak_below_min :
    random_peak cycle5 (-1 / 4) (1 / 4) 1 0 = (-3 / 8, 1) ∧
      random_normal cycle5 0 (1 / 4) 1 0 = (-3 / 8, 1) ∧
      ¬ ((-1 / 4 : ℚ) ≤ (random_peak cycle5 (-1 / 4) (1 / 4) 1 0).1) ∧
      ¬ ((0 - 1 / 4 : ℚ) ≤ (random_normal cycle5 0 (1 / 4) 1 0).1) := by
  have h1 : random_peak cycle5 (-1 / 4) (1 / 4) 1 0 = (-3 / 8, 1) := by
    rw [random_peak_one, random_equal_cycle5]
    norm_num [cycle5]
  have h2 : random_normal cycle5 0 (1 / 4) 1 0 = (-3 / 8, 1) := by
    rw [random_normal, random_peak_one, random_equal_cycle5]
    norm_num [cycle5]
  refine ⟨h1, h2, ?_, ?_⟩
  · rw [h1]
    norm_num
  · rw [h2]
    norm_num

/-- Claim C13 fails on the code. With `med = 0`, `var = 1/4` and a draw
`rand() = 0` (source `cycle5` in state `0`), `random_normal(med, var, 1)` returns
`-3/8` while `random_equal(med - var, med + var)` on the same draw returns
`-1/4`. -/
theorem random_normal_one_differs :
    random_normal cycle5 0 (1 / 4) 1 0 = (-3 / 8, 1) ∧
      random_equal cycle5 (0 - 1 / 4) (0 + 1 / 4) 0 = (-1 / 4, 1) ∧
      (random_normal cycle5 0 (1 / 4) 1 0).1
        ≠ (random_equal cycle5 (0 - 1 / 4) (0 + 1 / 4) 0).1 := by
  have h1 : random_normal cycle5 0 (1 / 4) 1 0 = (-3 / 8, 1) := by
    rw [random_normal, random_peak_one, random_equal_cycle5]
    norm_num [cycle5]
  have h2 : random_equal cycle5 (0 - 1 / 4) (0 + 1 / 4) 0 = (-1 / 4, 1) := by
    rw [random_equal_cycle5]
    norm_num
  refine ⟨h1, h2, ?_⟩
  rw [h1, h2]
  norm_num

/-! ## `is_vector_ok` on doubles that may be NaN -/

theorem is_vector_ok_nan_of_finite (min max : ℚ) (x : List ℚ) :
    is_vector_ok_nan (some min) (some max) (x.map some) = is_vector_ok min max x := by
  induction x with
  | nil => rfl
  | cons val x ih =>
    simp only [List.map_cons, is_vector_ok_nan, is_vector_ok, lt_nan, ih, gt_iff_lt]
    by_cases h1 : val < min <;> by_cases h2 : max < val <;> simp [h1, h2]

/-- Claim C12 fails on the code. With a NaN component, `is_vector_ok(0, 1, {0.5, NaN})`
returns `true` (both `val < min` and `val > max` are `false` for NaN), although
not every component lies in `[0, 1]`. -/
theorem is_vector_ok_nan_accepts_nan :
    is_vector_ok_nan (some 0) (some 1) [some (1 / 2), none] = true ∧
      ¬ (∀ c ∈ [some (1 / 2 : ℚ), none], ∃ q : ℚ, c = some q ∧ 0 ≤ q ∧ q ≤ 1) := by
  constructor
  · simp only [is_vector_ok_nan, lt_nan]
    norm_num
  · intro h
    obtain ⟨q, hq, -⟩ := h none (by simp)
    cases hq

/-! ## The dimension is not guarded -/

theorem do_while_dim_zero (attempt : List ℚ → Nat → List ℚ × Nat) (min max : ℚ)
    (hnil : ∀ s, attempt [] s = ([], s)) (fuel s : Nat) :
    do_while attempt min max (fuel + 1) ([], s) = some ([], ([], s)) := by
  simp [do_while, hnil, is_vector_ok]

theorem generate_n_const {α σ : Type} (g : σ → Option (α × σ)) (a : α) (st : σ)
    (hg : g st = some (a, st)) (n : Nat) :
    generate_n g n st = some (List.replicate n a, st) := by
  induction n with
  | zero => rfl
  | succ n ih => simp [generate_n, hg, ih, List.replicate_succ]

theorem corr_attempt_dim_zero (R : RandSource) (s : Nat) :
    corr_attempt R 0 [] s = ([], s) := by
  simp [corr_attempt, perturb, random_peak]

theorem anti_attempt_dim_zero (R : RandSource) (s : Nat) :
    anti_attempt R 0 [] s = ([], s) := by
  simp [anti_attempt, perturb, random_normal, random_peak]

theorem generate_indep_dim_zero (R : RandSource) (count s : Nat) :
    generate_indep R (count : Int) 0 s = Outcome.returns (List.replicate count [], s) := by
  have h := generate_indep_eq R count 0 s
  simp only [Nat.cast_zero, Nat.mul_zero, RandSource.advance] at h
  rw [h]
  congr 2
  apply List.ext_getElem
  · simp
  · intro i h1 h2
    simp [indep_row]

theorem generate_corr_dim_zero (R : RandSource) (fuel count s : Nat) :
    generate_corr R (fuel + 1) (count : Int) 0 s
      = Outcome.returns (List.replicate count [], s) := by
  have h := generate_corr_natCast R (fuel + 1) count 0 s
  simp only [Nat.cast_zero] at h
  rw [h, show List.replicate 0 (0 : ℚ) = [] from rfl,
    generate_n_const _ [] ([], s) (do_while_dim_zero _ 0 1 (corr_attempt_dim_zero R) fuel s)]
  rfl

theorem generate_anti_dim_zero (R : RandSource) (fuel count s : Nat) :
    generate_anti R (fuel + 1) (count : Int) 0 s
      = Outcome.returns (List.replicate count [], s) := by
  have h := generate_anti_natCast R (fuel + 1) count 0 s
  simp only [Nat.cast_zero] at h
  rw [h, show List.replicate 0 (0 : ℚ) = [] from rfl,
    generate_n_const _ [] ([], s) (do_while_dim_zero _ 0 1 (anti_attempt_dim_zero R) fuel s)]
  rfl

theorem generate_attr_dim_zero (R : RandSource) (fuel count : Nat) (dist : Char)
    (seed : Int) (prior : Nat) :
    generate_attr R (fuel + 1) (count : Int) 0 dist seed prior
      = Outcome.returns (List.replicate count [], R.srand seed prior) := by
  have h0 : vector_size 0 = some 0 := rfl
  unfold generate_attr
  split_ifs
  · exact generate_indep_dim_zero R count _
  · exact generate_corr_dim_zero R fuel count _
  · exact generate_anti_dim_zero R fuel count _
  · simp only [h0, vector_size_natCast]
    rfl

theorem generate_attr_size_neg (R : RandSource) (fuel : Nat) (count dim : Int) (dist : Char)
    (seed : Int) (prior : Nat) (h : dim < 0 ∨ count < 0) :
    generate_attr R fuel count dim dist seed prior = Outcome.length_error := by
  unfold generate_attr generate_indep generate_corr generate_anti
  rcases h with h | h
  · rw [vector_size_neg dim h]
    cases vector_size count <;> simp
  · rw [vector_size_neg count h]
    cases vector_size dim <;> simp

/-- Claim C14 fails on the code: `generate_attr(3, 0, 'i', 1)` does not fail, it
returns a Dataset of three empty vectors. -/
theorem generate_attr_dim_zero_returns :
    generate_attr cycle5 1 3 0 'i' 1 0 = Outcome.returns ([[], [], []], 1) ∧
      generate_attr cycle5 1 3 0 'i' 1 0 ≠ Outcome.length_error := by
  have h : generate_attr cycle5 1 3 0 'i' 1 0 = Outcome.returns ([[], [], []], 1) :=
    generate_attr_dim_zero cycle5 0 3 'i' 1 0
  refine ⟨h, ?_⟩
  rw [h]
  intro hc
  cases hc

/-- Claim C14 as amended. `generate_attr` has no guard of its own on the
dimension.  For `dim < 0` (any `count`, tag and seed) the call fails: a
`std::vector` constructor throws and no Dataset is returned; so it does for
`dim = 0` with `count < 0`.  For `dim = 0` and `count ≥ 0` the call does not
fail: it returns a Dataset of `count` empty vectors and draws nothing from the
random source (one attempt per vector is enough). -/
theorem generate_attr_dim_nonpos (R : RandSource) (fuel : Nat) (count dim : Int)
    (dist : Char) (seed : Int) (prior : Nat) (hdim : dim ≤ 0) :
    (dim < 0 → generate_attr R fuel count dim dist seed prior = Outcome.length_error) ∧
      (dim = 0 → count < 0 →
        generate_attr R fuel count dim dist seed prior = Outcome.length_error) ∧
      (dim = 0 → 0 ≤ count → 1 ≤ fuel →
        generate_attr R fuel count dim dist seed prior
          = Outcome.returns (List.replicate count.toNat [], R.srand seed prior)) := by
  have _ := hdim
  refine ⟨fun h => generate_attr_size_neg R fuel count dim dist seed prior (Or.inl h),
    fun _ h => generate_attr_size_neg R fuel count dim dist seed prior (Or.inr h), ?_⟩
  intro h0 hc hf
  obtain ⟨f, rfl⟩ : ∃ f, fuel = f + 1 := ⟨fuel - 1, by omega⟩
  obtain ⟨n, rfl⟩ : ∃ n : Nat, count = (n : Int) := ⟨count.toNat, by omega⟩
  subst h0
  rw [Int.toNat_ofNat]
  exact generate_attr_dim_zero R f n dist seed prior

/-- Witness of C14 as amended: `dim = -2` throws, `dim = 0` returns four empty
vectors (tag `'c'`, one attempt each). -/
theorem generate_attr_dim_nonpos_witness :
    ((-2 : Int) ≤ 0 ∧ generate_attr cycle5 1 4 (-2) 'c' 9 0 = Outcome.length_error) ∧
      ((0 : Int) ≤ 0 ∧ generate_attr cycle5 1 4 0 'c' 9 0
        = Outcome.returns (List.replicate (4 : Int).toNat [], cycle5.srand 9 0)) :=
  ⟨⟨by decide, (generate_attr_dim_nonpos cycle5 1 4 (-2) 'c' 9 0 (by decide)).1 (by decide)⟩,
    ⟨le_rfl, (generate_attr_dim_nonpos cycle5 1 4 0 'c' 9 0 le_rfl).2.2 rfl (by decide)
      (by decide)⟩⟩


/-! ## The Dataset depends on the draws only -/

theorem sameStream_rand (R : RandSource) (s t : Nat) (h : R.SameStream s t) :
    (R.rand s).1 = (R.rand t).1 ∧ R.SameStream (R.rand s).2 (R.rand t).2 := by
  refine ⟨h 0, fun k => ?_⟩
  rw [draw_succ_left, draw_succ_left]
  exact h (k + 1)

theorem random_equal_sameStream (R : RandSource) (min max : ℚ) (s t : Nat)
    (h : R.SameStream s t) :
    (random_equal R min max s).1 = (random_equal R min max t).1 ∧
      R.SameStream (random_equal R min max s).2 (random_equal R min max t).2 := by
  obtain ⟨h1, h2⟩ := sameStream_rand R s t h
  simp only [random_equal]
  rw [h1]
  exact ⟨rfl, h2⟩

theorem random_peak_sameStream (R : RandSource) (min max : ℚ) (dim s t : Nat)
    (h : R.SameStream s t) :
    (random_peak R min max dim s).1 = (random_peak R min max dim t).1 ∧
      R.SameStream (random_peak R min max dim s).2 (random_peak R min max dim t).2 := by
  rw [random_peak_eq, random_peak_eq]
  refine ⟨?_, fun k => ?_⟩
  · simp only
    congr 3
    apply Finset.sum_congr rfl
    intro k _
    rw [h k]
  · rw [draw_advance, draw_advance]
    exact h (dim + k)

theorem random_normal_sameStream (R : RandSource) (med var : ℚ) (dim s t : Nat)
    (h : R.SameStream s t) :
    (random_normal R med var dim s).1 = (random_normal R med var dim t).1 ∧
      R.SameStream (random_normal R med var dim s).2 (random_normal R med var dim t).2 :=
  random_peak_sameStream R (med - var) (med + var) dim s t h

theorem perturb_sameStream (R : RandSource) (draw_h : Nat → ℚ × Nat)
    (hd : ∀ s t, R.SameStream s t →
      (draw_h s).1 = (draw_h t).1 ∧ R.SameStream (draw_h s).2 (draw_h t).2)
    (dim : Nat) (cur : List ℚ) (s t : Nat) (h : R.SameStream s t) :
    (perturb draw_h dim cur s).1 = (perturb draw_h dim cur t).1 ∧
      R.SameStream (perturb draw_h dim cur s).2 (perturb draw_h dim cur t).2 := by
  unfold perturb
  generalize List.range dim = ds
  have key : ∀ (acc acc1 : List ℚ × Nat), acc.1 = acc1.1 → R.SameStream acc.2 acc1.2 →
      (ds.foldl
          (fun (acc : List ℚ × Nat) (d : Nat) =>
            let h := draw_h acc.2
            let c1 := acc.1.set d (acc.1.getD d 0 + h.1)
            let c2 := c1.set ((d + 1) % dim) (c1.getD ((d + 1) % dim) 0 - h.1)
            (c2, h.2)) acc).1
        = (ds.foldl
          (fun (acc : List ℚ × Nat) (d : Nat) =>
            let h := draw_h acc.2
            let c1 := acc.1.set d (acc.1.getD d 0 + h.1)
            let c2 := c1.set ((d + 1) % dim) (c1.getD ((d + 1) % dim) 0 - h.1)
            (c2, h.2)) acc1).1 ∧
      R.SameStream
        (ds.foldl
          (fun (acc : List ℚ × Nat) (d : Nat) =>
            let h := draw_h acc.2
            let c1 := acc.1.set d (acc.1.getD d 0 + h.1)
            let c2 := c1.set ((d + 1) % dim) (c1.getD ((d + 1) % dim) 0 - h.1)
            (c2, h.2)) acc).2
        (ds.foldl
          (fun (acc : List ℚ × Nat) (d : Nat) =>
            let h := draw_h acc.2
            let c1 := acc.1.set d (acc.1.getD d 0 + h.1)
            let c2 := c1.set ((d + 1) % dim) (c1.getD ((d + 1) % dim) 0 - h.1)
            (c2, h.2)) acc1).2 := by
    induction ds with
    | nil =>
      intro acc acc1 h1 h2
      exact ⟨h1, h2⟩
    | cons d ds ih =>
      intro acc acc1 h1 h2
      obtain ⟨e1, e2⟩ := hd acc.2 acc1.2 h2
      rw [List.foldl_cons, List.foldl_cons]
      apply ih
      · simp only [h1, e1]
      · exact e2
  exact key (cur, s) (cur, t) rfl h

theorem corr_attempt_sameStream (R : RandSource) (dim : Nat) (cur : List ℚ) (s t : Nat)
    (h : R.SameStream s t) :
    (corr_attempt R dim cur s).1 = (corr_attempt R dim cur t).1 ∧
      R.SameStream (corr_attempt R dim cur s).2 (corr_attempt R dim cur t).2 := by
  obtain ⟨hv, hs⟩ := random_peak_sameStream R 0 1 dim s t h
  simp only [corr_attempt]
  rw [hv]
  exact perturb_sameStream R _ (fun a b hab => random_normal_sameStream R _ _ dim a b hab)
    dim _ _ _ hs

theorem anti_attempt_sameStream (R : RandSource) (dim : Nat) (cur : List ℚ) (s t : Nat)
    (h : R.SameStream s t) :
    (anti_attempt R dim cur s).1 = (anti_attempt R dim cur t).1 ∧
      R.SameStream (anti_attempt R dim cur s).2 (anti_attempt R dim cur t).2 := by
  obtain ⟨hv, hs⟩ := random_normal_sameStream R (1 / 2) (1 / 4) dim s t h
  simp only [anti_attempt]
  rw [hv]
  exact perturb_sameStream R _ (fun a b hab => random_equal_sameStream R _ _ a b hab)
    dim _ _ _ hs

theorem do_while_agree (R : RandSource) (attempt : List ℚ → Nat → List ℚ × Nat)
    (ha : ∀ cur s t, R.SameStream s t →
      (attempt cur s).1 = (attempt cur t).1 ∧
        R.SameStream (attempt cur s).2 (attempt cur t).2)
    (min max : ℚ) :
    ∀ (fuel : Nat) (st st1 : List ℚ × Nat), R.SameState st st1 →
      Agree R.SameState (do_while attempt min max fuel st)
        (do_while attempt min max fuel st1) := by
  intro fuel
  induction fuel with
  | zero =>
    intro st st1 _
    simp [do_while, Agree]
  | succ fuel ih =>
    intro st st1 hst
    obtain ⟨h1, h2⟩ := hst
    obtain ⟨e1, e2⟩ := ha st.1 st.2 st1.2 h2
    rw [h1] at e1 e2
    have hrel : R.SameState (attempt st.1 st.2) (attempt st1.1 st1.2) := by
      rw [h1]
      exact ⟨e1, e2⟩
    simp only [do_while]
    rw [← hrel.1]
    by_cases hok : is_vector_ok min max (attempt st.1 st.2).1 = true
    · simp only [hok, if_true, Agree]
      exact ⟨trivial, hrel⟩
    · simp only [hok]
      exact ih _ _ hrel

theorem generate_n_agree {α σ : Type} (g : σ → Option (α × σ)) (Rel : σ → σ → Prop)
    (hg : ∀ st st1, Rel st st1 → Agree Rel (g st) (g st1)) :
    ∀ (n : Nat) (st st1 : σ), Rel st st1 →
      Agree Rel (generate_n g n st) (generate_n g n st1) := by
  intro n
  induction n with
  | zero =>
    intro st st1 h
    exact ⟨rfl, h⟩
  | succ n ih =>
    intro st st1 h
    have h1 := hg st st1 h
    simp only [generate_n]
    cases e : g st with
    | none =>
      cases e1 : g st1 with
      | none => simp [Agree]
      | some q => rw [e, e1] at h1; exact h1.elim
    | some p =>
      cases e1 : g st1 with
      | none => rw [e, e1] at h1; exact h1.elim
      | some q =>
        rw [e, e1] at h1
        obtain ⟨a, t⟩ := p
        obtain ⟨b, u⟩ := q
        obtain ⟨hab, htu⟩ := h1
        simp only at hab htu
        subst hab
        have h2 := ih t u htu
        simp only
        cases e2 : generate_n g n t with
        | none =>
          cases e3 : generate_n g n u with
          | none => simp [Agree]
          | some q => rw [e2, e3] at h2; exact h2.elim
        | some p =>
          cases e3 : generate_n g n u with
          | none => rw [e2, e3] at h2; exact h2.elim
          | some q =>
            rw [e2, e3] at h2
            obtain ⟨as, t2⟩ := p
            obtain ⟨bs, u2⟩ := q
            obtain ⟨hab, htu⟩ := h2
            simp only at hab htu
            subst hab
            exact ⟨rfl, htu⟩

theorem indep_vector_agree (R : RandSource) (dim : Nat) (st st1 : List ℚ × Nat)
    (h : R.SameState st st1) :
    Agree R.SameState (indep_vector R dim st) (indep_vector R dim st1) := by
  obtain ⟨h1, h2⟩ := h
  have key := generate_n_agree (fun s => some (random_equal R 0 1 s)) R.SameStream
    (fun a b hab => random_equal_sameStream R 0 1 a b hab) dim st.2 st1.2 h2
  simp only [indep_vector]
  rw [generate_n_random_equal, generate_n_random_equal] at key ⊢
  obtain ⟨k1, k2⟩ := key
  simp only at k1 k2
  simp only [Agree]
  rw [k1, h1]
  exact ⟨rfl, rfl, k2⟩

theorem finish_agree (R : RandSource) (r r1 : Option (List (List ℚ) × (List ℚ × Nat)))
    (h : Agree R.SameState r r1) :
    (finish r).map Prod.fst = (finish r1).map Prod.fst := by
  match r, r1, h with
  | none, none, _ => rfl
  | some p, some q, h =>
    obtain ⟨a, t⟩ := p
    obtain ⟨b, u⟩ := q
    obtain ⟨hab, -⟩ := h
    simp only at hab
    subst hab
    rfl

theorem generate_attr_sameStream (R : RandSource) (fuel : Nat) (count dim : Int)
    (dist : Char) (s t : Nat) (h : R.SameStream s t) :
    ((if dist = 'i' then generate_indep R count dim s
        else if dist = 'c' then generate_corr R fuel count dim s
        else generate_anti R fuel count dim s).map Prod.fst)
      = ((if dist = 'i' then generate_indep R count dim t
        else if dist = 'c' then generate_corr R fuel count dim t
        else generate_anti R fuel count dim t).map Prod.fst) := by
  unfold generate_indep generate_corr generate_anti
  cases vector_size count with
  | none => simp
  | some n =>
    cases vector_size dim with
    | none => simp
    | some d =>
      have hst : R.SameState (List.replicate d (0 : ℚ), s) (List.replicate d (0 : ℚ), t) :=
        ⟨rfl, h⟩
      split_ifs
      · exact finish_agree R _ _
          (generate_n_agree _ R.SameState (indep_vector_agree R d) n _ _ hst)
      · exact finish_agree R _ _
          (generate_n_agree _ R.SameState
            (do_while_agree R _ (corr_attempt_sameStream R d) 0 1 fuel) n _ _ hst)
      · exact finish_agree R _ _
          (generate_n_agree _ R.SameState
            (do_while_agree R _ (anti_attempt_sameStream R d) 0 1 fuel) n _ _ hst)

theorem generate_attr_dataset (R : RandSource) (hR : R.Reseeds) (fuel : Nat)
    (count dim : Int) (dist : Char) (seed : Int) (prior1 prior2 : Nat) :
    (generate_attr R fuel count dim dist seed prior1).map Prod.fst =
      (generate_attr R fuel count dim dist seed prior2).map Prod.fst := by
  have h := generate_attr_sameStream R fuel count dim dist _ _ (hR seed prior1 prior2)
  unfold generate_attr
  by_cases hi : dist = 'i'
  · simpa only [hi, if_true] using h
  · by_cases hc : dist = 'c'
    · simpa only [hi, hc, if_true, if_false] using h
    · by_cases ha : dist = 'a'
      · simpa only [hi, hc, ha, if_true, if_false] using h
      · simp only [hi, hc, ha, if_false]
        cases vector_size dim with
        | none => rfl
        | some d =>
          cases vector_size count with
          | none => rfl
          | some n => rfl

/-- Claim C3. `generate_attr` is deterministic in `(count, dim, tag, seed)`: with a
random source whose sequence of draws after `srand(seed)` is fixed by the seed,
two calls made from any two states of the source end the same way and return
the same Dataset, because the call re-seeds the source before any draw.  In
particular a second call made right after a first one, from the state the first
one left, reproduces its Dataset. -/
theorem generate_attr_deterministic (R : RandSource) (hR : R.Reseeds) (fuel : Nat)
    (count dim : Int) (dist : Char) (seed : Int) (prior1 prior2 : Nat) :
    (generate_attr R fuel count dim dist seed prior1).map Prod.fst =
        (generate_attr R fuel count dim dist seed prior2).map Prod.fst ∧
      ∀ ds s1, generate_attr R fuel count dim dist seed prior1 = Outcome.returns (ds, s1) →
        ∃ s2, generate_attr R fuel count dim dist seed s1 = Outcome.returns (ds, s2) := by
  refine ⟨generate_attr_dataset R hR fuel count dim dist seed prior1 prior2, ?_⟩
  intro ds s1 h
  have e := generate_attr_dataset R hR fuel count dim dist seed prior1 s1
  rw [h] at e
  cases h2 : generate_attr R fuel count dim dist seed s1 with
  | returns p =>
    rw [h2] at e
    simp only [Outcome.map, Outcome.returns.injEq] at e
    exact ⟨p.2, by rw [e]⟩
  | length_error =>
    rw [h2] at e
    cases e
  | out_of_fuel =>
    rw [h2] at e
    cases e

/-- Witness of C3: the source `cycle5`, whose state after `srand` keeps a
multiple of `5` from the state before; the calls from the states `0` and `7`
return the same Dataset. -/
theorem generate_attr_deterministic_witness :
    cycle5.Reseeds ∧
      ((generate_attr cycle5 10 ((1 : Nat) : Int) ((2 : Nat) : Int) 'c' 1 0).map Prod.fst =
          (generate_attr cycle5 10 ((1 : Nat) : Int) ((2 : Nat) : Int) 'c' 1 7).map Prod.fst ∧
        ∀ ds s1, generate_attr cycle5 10 ((1 : Nat) : Int) ((2 : Nat) : Int) 'c' 1 0
            = Outcome.returns (ds, s1) →
          ∃ s2, generate_attr cycle5 10 ((1 : Nat) : Int) ((2 : Nat) : Int) 'c' 1 s1
            = Outcome.returns (ds, s2)) :=
  ⟨cycle5_Reseeds,
    generate_attr_deterministic cycle5 cycle5_Reseeds 10 ((1 : Nat) : Int) ((2 : Nat) : Int)
      'c' 1 0 7⟩

end generate
